import Mathlib

/-!
Shallow embedding of the `dbg` debugging library (repository jayacarlson/dbg,
file `dbg.go`), and proofs about its check/assert protocol and its gated
emitters.

The embedded program is the current revision of the package (the copy of
`dbg.go` that `dbg_test.go` compiles against), together with the shared
helpers `failed`, `errored`, `genText`, `at` that appear in the earlier
revision kept alongside it, and the package-level `LvlMsg` and `MaskMsg`
gates which exist only in that earlier revision.

Modelling decisions:
* Side effects are an explicit trace: each operation returns the list of
  events it performs (stream emissions, closer invocations, `panic`,
  `os.Exit`), in program order.
* `fmt.Sprintf` and the call-site strings produced by the stack-walking
  helpers `at()` and `funcAt()` are external collaborators; they are fields
  of a `Ctx` record threaded through every operation.
* A Go error value made by `errors.New` is an identity-carrying value
  (`GoError`); a possibly-nil error interface value is `Option GoError`.
* Go `int` is `Int`; the `uint32` debug masks are `Nat` with bitwise and,
  which agrees with `uint32` on all in-range values.
* Color strings are the constants installed by `Color()`; none of the
  properties proved here depend on the color table state.
-/

namespace DbgLib

/-- A Go error value created by `errors.New`: an identity plus its text. -/
structure GoError where
  id : Nat
  msg : String
deriving DecidableEq, Repr

/-- A possibly-nil Go `error` interface value; `none` models `nil`. -/
abbrev GoErr := Option GoError

/-- Rendering of a non-nil error by `fmt.Sprintf` with the v verb: its text. -/
def render (e : GoError) : String := e.msg

/-- One element of a variadic `...interface` argument list, tagged by the
dynamic type the library's type switches test for: a string, an error, a
zero-argument function (potential closer), or any other value. -/
inductive Arg where
  | str (s : String)
  | err (e : GoError)
  | closer (id : Nat)
  | other (n : Nat)
deriving DecidableEq, Repr

/-- The two output streams of the emission sink. -/
inductive Stream where
  | primary
  | errStream
deriving DecidableEq, Repr

/-- Value handed to the built-in `panic`: either `errors.New(msg)` or a bare
string. -/
inductive Payload where
  | errPayload (msg : String)
  | strPayload (s : String)
deriving DecidableEq, Repr

/-- Observable effect of one library call. -/
inductive Event where
  | emit (s : Stream) (text : String)
  | closerCall (id : Nat)
  | exitProc (code : Int)
  | panicked (p : Payload)
deriving DecidableEq, Repr

/-- External collaborators threaded through every operation: `fmt.Sprintf`,
the call-site tag returned by `at()`, and the location `funcAt(2)` used by
the countdown-expiry message of `decExit`. -/
structure Ctx where
  sprintf : String → List Arg → String
  callerAt : String
  funcAt2 : String

/-- Color constant installed by `Color()`: reset to normal text. -/
def normColor : String := "\x1b[0m"

/-- Color constant installed by `Color()`: cyan. -/
def msgColor : String := "\x1b[36m"

/-- Color constant installed by `Color()`: green. -/
def infoColor : String := "\x1b[32m"

/-- Color constant installed by `Color()`: blue. -/
def noteColor : String := "\x1b[34m"

/-- Color constant installed by `Color()`: orange. -/
def warnColor : String := "\x1b[33m"

/-- Color constant installed by `Color()`: bright yellow. -/
def ccnColor : String := "\x1b[93m"

/-- Color constant installed by `Color()`: gray. -/
def statColor : String := "\x1b[90m"

/-- Color constant installed by `Color()`: magenta. -/
def failColor : String := "\x1b[35m"

/-- Color constant installed by `Color()`: red. -/
def errColor : String := "\x1b[31m"

/-- Color constant installed by `Color()`: white on red. -/
def fatalColor : String := "\x1b[1;41m"

/-- Modelled from the spec: the sink `outerr` is referenced throughout
`dbg.go` but its definition is in a file missing from `src/`; per the
Emission Sink contract (spec section 4.4) it writes formatted text to the
error stream.  The check engine always invokes it with a lone string-verb
format and one string argument, whose printf rendering is that string
followed by a newline. -/
def outerrLine (s : String) : Event := .emit .errStream (s ++ "\n")

/-- Modelled from the spec: a general `outerr` call with a format string and
arguments, written to the error stream through `fmt.Sprintf`. -/
def outerrFmt (ctx : Ctx) (fstr : String) (a : List Arg) : Event :=
  .emit .errStream (ctx.sprintf fstr a)

/-- The primary-stream sink `output` (initialized to the printf of the fmt
package): write formatted text to the primary stream. -/
def outputFmt (ctx : Ctx) (fstr : String) (a : List Arg) : Event :=
  .emit .primary (ctx.sprintf fstr a)

/-- `genText`: build the message text from the variadic tail, supplying the
literal check-failure default if none given.  A leading string is a format
string over the remaining arguments; a leading error is rendered and, when a
string follows it, that string's substitution is appended directly. -/
def genText (ctx : Ctx) : List Arg → String
  | [] => "Check failed"
  | .str f :: rest => ctx.sprintf f rest
  | .err e :: .str f :: rest => render e ++ ctx.sprintf f rest
  | .err e :: _ => render e
  | _ => "Check failed"

/-- `failed`: on a terminating path (`c` set) call any trailing closer, strip
it from the argument list, and generate the text from the rest.  The source
guards with a positive length test; inspecting the last element of the empty
list yields `none`, so that guard is subsumed by the match. -/
def failed (ctx : Ctx) (c : Bool) (a : List Arg) : List Event × String :=
  if c then
    match a.getLast? with
    | some (.closer cid) => ([.closerCall cid], genText ctx a.dropLast)
    | _ => ([], genText ctx a)
  else ([], genText ctx a)

/-- `errored`: like `failed` but for error checks; with an empty argument
list the text is the stringified error rather than the generic default. -/
def errored (ctx : Ctx) (c : Bool) (e : GoError) (a : List Arg) : List Event × String :=
  match a with
  | [] => ([], render e)
  | _ :: _ =>
    if c then
      match a.getLast? with
      | some (.closer cid) => ([.closerCall cid], genText ctx a.dropLast)
      | _ => ([], genText ctx a)
    else ([], genText ctx a)

/-- `ChkTru` (report-only): emit one tagged message on the error stream when
the test is false; return whether the test failed. -/
def ChkTru (ctx : Ctx) (tst : Bool) (a : List Arg) : List Event × Bool :=
  if !tst then
    ((failed ctx false a).1 ++
      [outerrLine (failColor ++ "CHK " ++ ctx.callerAt ++ normColor ++ (failed ctx false a).2)],
     !tst)
  else ([], !tst)

/-- `ChkErr` (report-only): emit one tagged message on the error stream when
the error is non-nil; return whether it was non-nil. -/
def ChkErr (ctx : Ctx) (e : GoErr) (a : List Arg) : List Event × Bool :=
  match e with
  | none => ([], false)
  | some er =>
    ((errored ctx false er a).1 ++
      [outerrLine (errColor ++ "ERR " ++ ctx.callerAt ++ normColor ++ (errored ctx false er a).2)],
     true)

/-- `ChkErrI`: report-only error check with an ignore list; an error
identical to an ignore-list entry is still detected (returns true) but not
reported.  The source's loop over the list comparing by interface identity is
the membership test under `GoError` equality. -/
def ChkErrI (ctx : Ctx) (e : GoErr) (i : List GoError) (a : List Arg) : List Event × Bool :=
  match e with
  | none => ([], false)
  | some er =>
    if er ∈ i then ([], true)
    else
      ((errored ctx false er a).1 ++
        [outerrLine (errColor ++ "ERR " ++ ctx.callerAt ++ normColor ++ (errored ctx false er a).2)],
       true)

/-- The single emission `ChkErrList` performs for one non-nil list entry
(`none` for a nil entry). -/
def chkErrListEv (ctx : Ctx) (a : List Arg) : GoErr → Option Event
  | none => none
  | some e =>
    some (outerrLine (errColor ++ "ERR " ++ ctx.callerAt ++ normColor ++ (errored ctx false e a).2))

/-- `ChkErrList`: loop over the whole list, emitting one tagged message per
non-nil entry; the flag accumulated by the loop is true iff some entry was
non-nil.  (The error list is the last parameter here so the recursion is on
it; in the source it precedes the variadic tail.) -/
def ChkErrList (ctx : Ctx) (a : List Arg) : List GoErr → List Event × Bool
  | [] => ([], false)
  | none :: rest => ChkErrList ctx a rest
  | some e :: rest =>
    ((errored ctx false e a).1 ++
      outerrLine (errColor ++ "ERR " ++ ctx.callerAt ++ normColor ++ (errored ctx false e a).2)
        :: (ChkErrList ctx a rest).1,
     true)

lemma failed_false (ctx : Ctx) (a : List Arg) : failed ctx false a = ([], genText ctx a) := rfl

lemma errored_false_events (ctx : Ctx) (e : GoError) (a : List Arg) :
    (errored ctx false e a).1 = [] := by
  cases a <;> rfl

lemma chkErrListEv_length (ctx : Ctx) (a : List Arg) (errs : List GoErr) :
    (errs.filterMap (chkErrListEv ctx a)).length = (errs.filter fun er => er.isSome).length := by
  induction errs with
  | nil => rfl
  | cons h t ih => cases h <;> simp [chkErrListEv, List.filter, ih]

lemma ChkErrList_spec (ctx : Ctx) (a : List Arg) (errs : List GoErr) :
    (ChkErrList ctx a errs).1 = errs.filterMap (chkErrListEv ctx a)
    ∧ (ChkErrList ctx a errs).2 = errs.any fun er => er.isSome := by
  induction errs with
  | nil => exact ⟨rfl, rfl⟩
  | cons h t ih =>
    cases h with
    | none => simpa [ChkErrList, chkErrListEv] using ih
    | some er => simp [ChkErrList, chkErrListEv, ih.1, errored_false_events]

/-- `Panic`: the built-in panic applied to `errors.New` of the generated
text, after any trailing closer has been called and stripped. -/
def Panic (ctx : Ctx) (a : List Arg) : List Event :=
  (failed ctx true a).1 ++ [.panicked (.errPayload (failed ctx true a).2)]

/-- `Fatal`: emit the generated text in fatal colors on the error stream,
then exit the process; any trailing closer runs first. -/
def Fatal (ctx : Ctx) (a : List Arg) : List Event :=
  (failed ctx true a).1 ++
    [outerrLine (fatalColor ++ (failed ctx true a).2 ++ normColor), .exitProc (-1)]

/-- `PanicIf`: panic with `errors.New` of the generated text when the
condition holds. -/
def PanicIf (ctx : Ctx) (b : Bool) (a : List Arg) : List Event :=
  if b then (failed ctx true a).1 ++ [.panicked (.errPayload (failed ctx true a).2)]
  else []

/-- `FatalIf`: emit and exit when the condition holds. -/
def FatalIf (ctx : Ctx) (b : Bool) (a : List Arg) : List Event :=
  if b then
    (failed ctx true a).1 ++
      [outerrLine (fatalColor ++ (failed ctx true a).2 ++ normColor), .exitProc (-1)]
  else []

/-- `PanicIfErr`: panic with `errors.New` of the error-style text when the
error is non-nil. -/
def PanicIfErr (ctx : Ctx) (e : GoErr) (a : List Arg) : List Event :=
  match e with
  | none => []
  | some er => (errored ctx true er a).1 ++ [.panicked (.errPayload (errored ctx true er a).2)]

/-- `FatalIfErr`: emit the error-style text and exit when the error is
non-nil. -/
def FatalIfErr (ctx : Ctx) (e : GoErr) (a : List Arg) : List Event :=
  match e with
  | none => []
  | some er =>
    (errored ctx true er a).1 ++
      [outerrLine (fatalColor ++ (errored ctx true er a).2 ++ normColor), .exitProc (-1)]

/-- `ChkTruP`: panic with `errors.New` of the generated text when the test is
false. -/
def ChkTruP (ctx : Ctx) (tst : Bool) (a : List Arg) : List Event :=
  if !tst then (failed ctx true a).1 ++ [.panicked (.errPayload (failed ctx true a).2)]
  else []

/-- `ChkTruX`: emit one tagged message on the error stream and exit when the
test is false. -/
def ChkTruX (ctx : Ctx) (tst : Bool) (a : List Arg) : List Event :=
  if !tst then
    (failed ctx true a).1 ++
      [outerrLine (failColor ++ "CHK " ++ ctx.callerAt ++ normColor ++ (failed ctx true a).2),
       .exitProc (-1)]
  else []

/-- `ChkErrP`: panic with `errors.New` of the error-style text when the error
is non-nil. -/
def ChkErrP (ctx : Ctx) (e : GoErr) (a : List Arg) : List Event :=
  match e with
  | none => []
  | some er => (errored ctx true er a).1 ++ [.panicked (.errPayload (errored ctx true er a).2)]

/-- `ChkErrX`: emit one tagged message on the error stream and exit when the
error is non-nil. -/
def ChkErrX (ctx : Ctx) (e : GoErr) (a : List Arg) : List Event :=
  match e with
  | none => []
  | some er =>
    (errored ctx true er a).1 ++
      [outerrLine (errColor ++ "ERR " ++ ctx.callerAt ++ normColor ++ (errored ctx true er a).2),
       .exitProc (-1)]

/-- Number of closer invocations recorded in a trace. -/
def closerCalls (evs : List Event) : Nat :=
  (evs.filter fun ev => match ev with | .closerCall _ => true | _ => false).length

/-- The panic payloads recorded in a trace, in order. -/
def payloads (evs : List Event) : List Payload :=
  evs.filterMap fun ev => match ev with | .panicked p => some p | _ => none

lemma failed_concat_closer (ctx : Ctx) (a : List Arg) (cid : Nat) :
    failed ctx true (a ++ [.closer cid]) = ([.closerCall cid], genText ctx a) := by
  simp [failed, List.getLast?_concat, List.dropLast_concat]

lemma errored_concat_closer (ctx : Ctx) (e : GoError) (a : List Arg) (cid : Nat) :
    errored ctx true e (a ++ [.closer cid]) = ([.closerCall cid], genText ctx a) := by
  cases a with
  | nil => rfl
  | cons x t =>
    have hlast : (x :: (t ++ [Arg.closer cid])).getLast? = some (Arg.closer cid) := by
      rw [← List.cons_append]
      exact List.getLast?_concat _
    have hdrop : (x :: (t ++ [Arg.closer cid])).dropLast = x :: t := by
      rw [← List.cons_append]
      exact List.dropLast_concat
    simp [errored, hlast, hdrop]

lemma errored_cons_false (ctx : Ctx) (e : GoError) (x : Arg) (t : List Arg) :
    errored ctx false e (x :: t) = ([], genText ctx (x :: t)) := rfl

lemma closerCalls_chkErrList (ctx : Ctx) (a : List Arg) (errs : List GoErr) :
    closerCalls (ChkErrList ctx a errs).1 = 0 := by
  induction errs with
  | nil => rfl
  | cons h t ih =>
    cases h with
    | none => simpa [ChkErrList] using ih
    | some er => simpa [ChkErrList, closerCalls, errored_false_events, outerrLine] using ih

lemma payloads_append (l1 l2 : List Event) :
    payloads (l1 ++ l2) = payloads l1 ++ payloads l2 := by
  simp only [payloads]
  exact List.filterMap_append l1 l2 _

lemma payloads_panicked (p : Payload) : payloads [.panicked p] = [p] := rfl

lemma payloads_failed (ctx : Ctx) (c : Bool) (a : List Arg) :
    payloads (failed ctx c a).1 = [] := by
  unfold failed
  split
  · split <;> simp [payloads]
  · simp [payloads]

lemma payloads_errored (ctx : Ctx) (c : Bool) (e : GoError) (a : List Arg) :
    payloads (errored ctx c e a).1 = [] := by
  unfold errored
  split
  · simp [payloads]
  · split
    · split <;> simp [payloads]
    · simp [payloads]

lemma genText_sprintf_only (s : String → List Arg → String) (c1 c2 f1 f2 : String)
    (a : List Arg) : genText ⟨s, c1, f1⟩ a = genText ⟨s, c2, f2⟩ a := by
  cases a with
  | nil => rfl
  | cons h t =>
    cases h with
    | str f => rfl
    | err e =>
      cases t with
      | nil => rfl
      | cons h2 t2 => cases h2 <;> rfl
    | closer i => rfl
    | other n => rfl

lemma failed_sprintf_only (s : String → List Arg → String) (c1 c2 f1 f2 : String)
    (c : Bool) (a : List Arg) :
    (failed ⟨s, c1, f1⟩ c a).2 = (failed ⟨s, c2, f2⟩ c a).2 := by
  cases c with
  | false => exact genText_sprintf_only s c1 c2 f1 f2 a
  | true =>
    cases h : a.getLast? with
    | none =>
      simp only [failed, if_true, h]
      exact genText_sprintf_only s c1 c2 f1 f2 a
    | some arg =>
      cases arg <;> simp only [failed, if_true, h] <;>
        first
          | exact genText_sprintf_only s c1 c2 f1 f2 a.dropLast
          | exact genText_sprintf_only s c1 c2 f1 f2 a

lemma errored_sprintf_only (s : String → List Arg → String) (c1 c2 f1 f2 : String)
    (c : Bool) (e : GoError) (a : List Arg) :
    (errored ⟨s, c1, f1⟩ c e a).2 = (errored ⟨s, c2, f2⟩ c e a).2 := by
  cases a with
  | nil => rfl
  | cons x t =>
    cases c with
    | false => exact genText_sprintf_only s c1 c2 f1 f2 (x :: t)
    | true =>
      cases h : (x :: t).getLast? with
      | none =>
        simp only [errored, if_true, h]
        exact genText_sprintf_only s c1 c2 f1 f2 (x :: t)
      | some arg =>
        cases arg <;> simp only [errored, if_true, h] <;>
          first
            | exact genText_sprintf_only s c1 c2 f1 f2 (x :: t).dropLast
            | exact genText_sprintf_only s c1 c2 f1 f2 (x :: t)

/-- Claim C1: on every terminating check whose condition fails and whose last
variadic argument is a zero-argument closer, the closer is invoked exactly
once, as the first recorded effect — before the emission or the panic or the
exit — and the message text is generated from the argument list with the
closer stripped; on every report-only check the trailing function is never
invoked (no closer-call effect) and never stripped (the text is generated
from the full argument list). -/
theorem claim_C1_closer_protocol (ctx : Ctx) (a : List Arg) (cid : Nat) (e : GoError)
    (i : List GoError) :
    Panic ctx (a ++ [.closer cid]) =
      [.closerCall cid, .panicked (.errPayload (genText ctx a))]
    ∧ Fatal ctx (a ++ [.closer cid]) =
      [.closerCall cid, outerrLine (fatalColor ++ genText ctx a ++ normColor), .exitProc (-1)]
    ∧ PanicIf ctx true (a ++ [.closer cid]) =
      [.closerCall cid, .panicked (.errPayload (genText ctx a))]
    ∧ FatalIf ctx true (a ++ [.closer cid]) =
      [.closerCall cid, outerrLine (fatalColor ++ genText ctx a ++ normColor), .exitProc (-1)]
    ∧ PanicIfErr ctx (some e) (a ++ [.closer cid]) =
      [.closerCall cid, .panicked (.errPayload (genText ctx a))]
    ∧ FatalIfErr ctx (some e) (a ++ [.closer cid]) =
      [.closerCall cid, outerrLine (fatalColor ++ genText ctx a ++ normColor), .exitProc (-1)]
    ∧ ChkTruP ctx false (a ++ [.closer cid]) =
      [.closerCall cid, .panicked (.errPayload (genText ctx a))]
    ∧ ChkTruX ctx false (a ++ [.closer cid]) =
      [.closerCall cid,
       outerrLine (failColor ++ "CHK " ++ ctx.callerAt ++ normColor ++ genText ctx a),
       .exitProc (-1)]
    ∧ ChkErrP ctx (some e) (a ++ [.closer cid]) =
      [.closerCall cid, .panicked (.errPayload (genText ctx a))]
    ∧ ChkErrX ctx (some e) (a ++ [.closer cid]) =
      [.closerCall cid,
       outerrLine (errColor ++ "ERR " ++ ctx.callerAt ++ normColor ++ genText ctx a),
       .exitProc (-1)]
    ∧ (ChkTru ctx false (a ++ [.closer cid])).1 =
      [outerrLine (failColor ++ "CHK " ++ ctx.callerAt ++ normColor
        ++ genText ctx (a ++ [.closer cid]))]
    ∧ (ChkErr ctx (some e) (a ++ [.closer cid])).1 =
      [outerrLine (errColor ++ "ERR " ++ ctx.callerAt ++ normColor
        ++ genText ctx (a ++ [.closer cid]))]
    ∧ (ChkErrI ctx (some e) i (a ++ [.closer cid])).1 =
      (if e ∈ i then []
       else [outerrLine (errColor ++ "ERR " ++ ctx.callerAt ++ normColor
        ++ genText ctx (a ++ [.closer cid]))])
    ∧ closerCalls (ChkErrList ctx (a ++ [.closer cid]) (some e :: [])).1 = 0
    ∧ (ChkErrList ctx (a ++ [.closer cid]) (some e :: [])).1 =
      [outerrLine (errColor ++ "ERR " ++ ctx.callerAt ++ normColor
        ++ genText ctx (a ++ [.closer cid]))] := by
  have hne : a ++ [Arg.closer cid] ≠ [] := by simp
  have herr2 : (errored ctx false e (a ++ [.closer cid])).2 =
      genText ctx (a ++ [.closer cid]) := by
    cases h : a ++ [Arg.closer cid] with
    | nil => exact absurd h hne
    | cons x t => rw [errored_cons_false]
  refine ⟨?_, ?_, ?_, ?_, ?_, ?_, ?_, ?_, ?_, ?_, ?_, ?_, ?_, ?_, ?_⟩
  · simp [Panic, failed_concat_closer]
  · simp [Fatal, failed_concat_closer]
  · simp [PanicIf, failed_concat_closer]
  · simp [FatalIf, failed_concat_closer]
  · simp [PanicIfErr, errored_concat_closer]
  · simp [FatalIfErr, errored_concat_closer]
  · simp [ChkTruP, failed_concat_closer]
  · simp [ChkTruX, failed_concat_closer]
  · simp [ChkErrP, errored_concat_closer]
  · simp [ChkErrX, errored_concat_closer]
  · simp [ChkTru, failed_false]
  · simp [ChkErr, errored_false_events, herr2]
  · by_cases h : e ∈ i <;> simp [ChkErrI, h, errored_false_events, herr2]
  · exact closerCalls_chkErrList ctx (a ++ [.closer cid]) (some e :: [])
  · simp [ChkErrList, errored_false_events, herr2]

/-- Claim C3: every panic-raising variant, whenever it fires, panics with the
formatted message wrapped as an error-typed value (the `errors.New`
constructor), and that message carries no call-site tag: the generated text
is unchanged under any change of the call-site string supplied by the
locator. -/
theorem claim_C3_panic_payload (ctx : Ctx) (a : List Arg) (e : GoError) (x y : String) :
    payloads (Panic ctx a) = [.errPayload (failed ctx true a).2]
    ∧ payloads (PanicIf ctx true a) = [.errPayload (failed ctx true a).2]
    ∧ payloads (PanicIfErr ctx (some e) a) = [.errPayload (errored ctx true e a).2]
    ∧ payloads (ChkTruP ctx false a) = [.errPayload (failed ctx true a).2]
    ∧ payloads (ChkErrP ctx (some e) a) = [.errPayload (errored ctx true e a).2]
    ∧ (failed ⟨ctx.sprintf, x, y⟩ true a).2 = (failed ctx true a).2
    ∧ (errored ⟨ctx.sprintf, x, y⟩ true e a).2 = (errored ctx true e a).2 := by
  refine ⟨?_, ?_, ?_, ?_, ?_, ?_, ?_⟩
  · simp [Panic, payloads_append, payloads_failed, payloads_panicked]
  · simp [PanicIf, payloads_append, payloads_failed, payloads_panicked]
  · simp [PanicIfErr, payloads_append, payloads_errored, payloads_panicked]
  · simp [ChkTruP, payloads_append, payloads_failed, payloads_panicked]
  · simp [ChkErrP, payloads_append, payloads_errored, payloads_panicked]
  · cases ctx with
    | mk s ca fa => exact failed_sprintf_only s x ca y fa true a
  · cases ctx with
    | mk s ca fa => exact errored_sprintf_only s x ca y fa true e a

/-- Claim C9: the message-text generator returns the literal default on an
empty argument list; substitutes a leading format string over the remaining
arguments; renders a leading error and, when a format string follows it,
appends that string's substitution with no separator; and the error-style
variant given an empty argument list returns the stringified error instead of
the generic default. -/
theorem claim_C9_genText (ctx : Ctx) (f : String) (e : GoError) (rest rest2 : List Arg) (c : Bool) :
    genText ctx [] = "Check failed"
    ∧ genText ctx (.str f :: rest) = ctx.sprintf f rest
    ∧ genText ctx (.err e :: .str f :: rest2) = render e ++ ctx.sprintf f rest2
    ∧ (errored ctx c e []).2 = render e :=
  ⟨rfl, rfl, rfl, rfl⟩

/-- Claim C2: report-only checks emit nothing and return false on a passing
condition (true test, nil error), and emit exactly one call-site-tagged line
on the error stream and return true on a failing condition. -/
theorem claim_C2_report_only (ctx : Ctx) (a : List Arg) (e : GoError) :
    ChkTru ctx true a = ([], false)
    ∧ ChkTru ctx false a =
        ([outerrLine (failColor ++ "CHK " ++ ctx.callerAt ++ normColor ++ genText ctx a)], true)
    ∧ ChkErr ctx none a = ([], false)
    ∧ ChkErr ctx (some e) a =
        ([outerrLine (errColor ++ "ERR " ++ ctx.callerAt ++ normColor ++ (errored ctx false e a).2)],
         true) := by
  refine ⟨rfl, rfl, rfl, ?_⟩
  cases a <;> rfl

/-- Claim C5: `ChkErrI` with a non-nil error returns true, and emits exactly
one message unless the error is identical to an ignore-list entry, in which
case it emits nothing; with a nil error it returns false and emits nothing. -/
theorem claim_C5_ChkErrI (ctx : Ctx) (e : GoError) (i : List GoError) (a : List Arg) :
    (ChkErrI ctx (some e) i a).2 = true
    ∧ (ChkErrI ctx (some e) i a).1 =
        (if e ∈ i then []
         else [outerrLine (errColor ++ "ERR " ++ ctx.callerAt ++ normColor ++ (errored ctx false e a).2)])
    ∧ ChkErrI ctx none i a = ([], false) := by
  by_cases h : e ∈ i <;> simp [ChkErrI, h, errored_false_events]

/-- Claim C7: `ChkErrList` walks the entire list without short-circuiting,
emits one call-site-tagged message per non-nil entry in order, and returns
true iff at least one entry is non-nil; an empty (or all-nil) list yields
false. -/
theorem claim_C7_ChkErrList (ctx : Ctx) (a : List Arg) (errs : List GoErr) :
    (ChkErrList ctx a errs).1 = errs.filterMap (chkErrListEv ctx a)
    ∧ (ChkErrList ctx a errs).1.length = (errs.filter fun er => er.isSome).length
    ∧ ((ChkErrList ctx a errs).2 = true ↔ ∃ er ∈ errs, er ≠ none)
    ∧ (ChkErrList ctx a []).2 = false := by
  obtain ⟨h1, h2⟩ := ChkErrList_spec ctx a errs
  refine ⟨h1, ?_, ?_, rfl⟩
  · rw [h1]
    exact chkErrListEv_length ctx a errs
  · rw [h2]
    simp [List.any_eq_true, Option.isSome_iff_ne_none]

/-- The boolean-flag gate: an enable flag plus a countdown of emissions
remaining before forced termination (zero meaning unlimited). -/
structure Dbg where
  Enabled : Bool
  MaxOut : Int
deriving DecidableEq, Repr

/-- The countdown-expired message emitted by `decExit` through `Error`,
tagged with the location of the original caller via `funcAt(2)`. -/
def countdownMsg (ctx : Ctx) : Event :=
  outerrFmt ctx (errColor ++ "--Countdown expired %s" ++ normColor ++ "\n") [.str ctx.funcAt2]

/-- `decExit`: after an emission, when the countdown is active, decrement it;
on reaching exactly zero emit the countdown-expired message and exit. -/
def Dbg.decExit (ctx : Ctx) (d : Dbg) : Dbg × List Event :=
  if d.MaxOut > 0 then
    if d.MaxOut - 1 = 0 then
      (⟨d.Enabled, d.MaxOut - 1⟩, [countdownMsg ctx, .exitProc (-1)])
    else (⟨d.Enabled, d.MaxOut - 1⟩, [])
  else (d, [])

/-- Flag-gated `Echo`: emit on the primary stream when enabled, then run the
countdown. -/
def Dbg.Echo (ctx : Ctx) (d : Dbg) (fstr : String) (a : List Arg) : Dbg × List Event :=
  if d.Enabled then
    ((d.decExit ctx).1, outputFmt ctx (fstr ++ "\n") a :: (d.decExit ctx).2)
  else (d, [])

/-- Flag-gated `ChkTru`: the emission (and countdown) happen only when the
gate is enabled and the test fails; the result is returned regardless. -/
def Dbg.ChkTru (ctx : Ctx) (d : Dbg) (tst : Bool) (a : List Arg) : Dbg × List Event × Bool :=
  if d.Enabled && !tst then
    ((d.decExit ctx).1,
     outerrLine (failColor ++ "CHK " ++ ctx.callerAt ++ normColor ++ (failed ctx false a).2)
       :: (d.decExit ctx).2,
     !tst)
  else (d, [], !tst)

/-- Flag-gated `ChkErr`. -/
def Dbg.ChkErr (ctx : Ctx) (d : Dbg) (e : GoErr) (a : List Arg) : Dbg × List Event × Bool :=
  match e with
  | none => (d, [], false)
  | some er =>
    if d.Enabled then
      ((d.decExit ctx).1,
       outerrLine (errColor ++ "ERR " ++ ctx.callerAt ++ normColor ++ (errored ctx false er a).2)
         :: (d.decExit ctx).2,
       true)
    else (d, [], true)

/-- Flag-gated `ChkErrI` (the source performs no countdown step here). -/
def Dbg.ChkErrI (ctx : Ctx) (d : Dbg) (e : GoErr) (i : List GoError) (a : List Arg) :
    List Event × Bool :=
  match e with
  | none => ([], false)
  | some er =>
    if d.Enabled then
      if er ∈ i then ([], true)
      else
        ([outerrLine (errColor ++ "ERR " ++ ctx.callerAt ++ normColor
           ++ (errored ctx false er a).2)], true)
    else ([], true)

/-- Whether an event is a process exit. -/
def isExit : Event → Bool
  | .exitProc _ => true
  | _ => false

/-- Run a sequence of flag-gated `Echo` calls, stopping (as the process does)
at the first call whose trace contains an exit. -/
def runEchos (ctx : Ctx) : Dbg → List (String × List Arg) → List Event
  | _, [] => []
  | d, c :: rest =>
    if (Dbg.Echo ctx d c.1 c.2).2.any isExit then (Dbg.Echo ctx d c.1 c.2).2
    else (Dbg.Echo ctx d c.1 c.2).2 ++ runEchos ctx (Dbg.Echo ctx d c.1 c.2).1 rest

/-- The level gate. -/
structure DbgLvl where
  Level : Int
deriving DecidableEq, Repr

/-- Level-gated `Echo`. -/
def DbgLvl.Echo (ctx : Ctx) (d : DbgLvl) (l : Int) (fstr : String) (a : List Arg) : List Event :=
  if d.Level > 0 ∧ d.Level ≥ l then [outputFmt ctx (fstr ++ "\n") a] else []

/-- Level-gated `Message`. -/
def DbgLvl.Message (ctx : Ctx) (d : DbgLvl) (l : Int) (fstr : String) (a : List Arg) : List Event :=
  if d.Level > 0 ∧ d.Level ≥ l then
    [outputFmt ctx (msgColor ++ fstr ++ normColor ++ "\n") a]
  else []

/-- Level-gated `Info`. -/
def DbgLvl.Info (ctx : Ctx) (d : DbgLvl) (l : Int) (fstr : String) (a : List Arg) : List Event :=
  if d.Level > 0 ∧ d.Level ≥ l then
    [outputFmt ctx (infoColor ++ fstr ++ normColor ++ "\n") a]
  else []

/-- Level-gated `Note`. -/
def DbgLvl.Note (ctx : Ctx) (d : DbgLvl) (l : Int) (fstr : String) (a : List Arg) : List Event :=
  if d.Level > 0 ∧ d.Level ≥ l then
    [outputFmt ctx (noteColor ++ fstr ++ normColor ++ "\n") a]
  else []

/-- Level-gated `Status`. -/
def DbgLvl.Status (ctx : Ctx) (d : DbgLvl) (l : Int) (fstr : String) (a : List Arg) : List Event :=
  if d.Level > 0 ∧ d.Level ≥ l then
    [outputFmt ctx (statColor ++ fstr ++ normColor ++ "\n") a]
  else []

/-- Level-gated `Warning`. -/
def DbgLvl.Warning (ctx : Ctx) (d : DbgLvl) (l : Int) (fstr : String) (a : List Arg) : List Event :=
  if d.Level > 0 ∧ d.Level ≥ l then
    [outputFmt ctx (warnColor ++ fstr ++ normColor ++ "\n") a]
  else []

/-- Level-gated `Caution`. -/
def DbgLvl.Caution (ctx : Ctx) (d : DbgLvl) (l : Int) (fstr : String) (a : List Arg) : List Event :=
  if d.Level > 0 ∧ d.Level ≥ l then
    [outputFmt ctx (ccnColor ++ fstr ++ normColor ++ "\n") a]
  else []

/-- Level-gated `Failed` (error stream). -/
def DbgLvl.Failed (ctx : Ctx) (d : DbgLvl) (l : Int) (fstr : String) (a : List Arg) : List Event :=
  if d.Level > 0 ∧ d.Level ≥ l then
    [outerrFmt ctx (failColor ++ fstr ++ normColor ++ "\n") a]
  else []

/-- Level-gated `Error` (error stream). -/
def DbgLvl.Error (ctx : Ctx) (d : DbgLvl) (l : Int) (fstr : String) (a : List Arg) : List Event :=
  if d.Level > 0 ∧ d.Level ≥ l then
    [outerrFmt ctx (errColor ++ fstr ++ normColor ++ "\n") a]
  else []

/-- Level-gated `Danger`. -/
def DbgLvl.Danger (ctx : Ctx) (d : DbgLvl) (l : Int) (fstr : String) (a : List Arg) : List Event :=
  if d.Level > 0 ∧ d.Level ≥ l then
    [outputFmt ctx (fatalColor ++ fstr ++ normColor ++ "\n") a]
  else []

/-- Level-gated `ChkTru`. -/
def DbgLvl.ChkTru (ctx : Ctx) (d : DbgLvl) (l : Int) (tst : Bool) (a : List Arg) :
    List Event × Bool :=
  if d.Level > 0 ∧ d.Level ≥ l ∧ tst = false then
    ([outerrLine (failColor ++ "CHK " ++ ctx.callerAt ++ normColor ++ (failed ctx false a).2)],
     !tst)
  else ([], !tst)

/-- Level-gated `ChkErr`. -/
def DbgLvl.ChkErr (ctx : Ctx) (d : DbgLvl) (l : Int) (e : GoErr) (a : List Arg) :
    List Event × Bool :=
  match e with
  | none => ([], false)
  | some er =>
    if d.Level > 0 ∧ d.Level ≥ l then
      ([outerrLine (errColor ++ "ERR " ++ ctx.callerAt ++ normColor
         ++ (errored ctx false er a).2)], true)
    else ([], true)

/-- The bitmask gate.  The mask is `uint32` in the source; bitwise and on
`Nat` agrees with it on all in-range values. -/
structure DbgMsk where
  Mask : Nat
deriving DecidableEq, Repr

/-- Mask-gated `Echo`. -/
def DbgMsk.Echo (ctx : Ctx) (d : DbgMsk) (m : Nat) (fstr : String) (a : List Arg) : List Event :=
  if d.Mask &&& m ≠ 0 then [outputFmt ctx (fstr ++ "\n") a] else []

/-- Mask-gated `Message`. -/
def DbgMsk.Message (ctx : Ctx) (d : DbgMsk) (m : Nat) (fstr : String) (a : List Arg) : List Event :=
  if d.Mask &&& m ≠ 0 then [outputFmt ctx (msgColor ++ fstr ++ normColor ++ "\n") a] else []

/-- Mask-gated `Info`. -/
def DbgMsk.Info (ctx : Ctx) (d : DbgMsk) (m : Nat) (fstr : String) (a : List Arg) : List Event :=
  if d.Mask &&& m ≠ 0 then [outputFmt ctx (infoColor ++ fstr ++ normColor ++ "\n") a] else []

/-- Mask-gated `Note`. -/
def DbgMsk.Note (ctx : Ctx) (d : DbgMsk) (m : Nat) (fstr : String) (a : List Arg) : List Event :=
  if d.Mask &&& m ≠ 0 then [outputFmt ctx (noteColor ++ fstr ++ normColor ++ "\n") a] else []

/-- Mask-gated `Status`. -/
def DbgMsk.Status (ctx : Ctx) (d : DbgMsk) (m : Nat) (fstr : String) (a : List Arg) : List Event :=
  if d.Mask &&& m ≠ 0 then [outputFmt ctx (statColor ++ fstr ++ normColor ++ "\n") a] else []

/-- Mask-gated `Warning`. -/
def DbgMsk.Warning (ctx : Ctx) (d : DbgMsk) (m : Nat) (fstr : String) (a : List Arg) : List Event :=
  if d.Mask &&& m ≠ 0 then [outputFmt ctx (warnColor ++ fstr ++ normColor ++ "\n") a] else []

/-- Mask-gated `Caution`. -/
def DbgMsk.Caution (ctx : Ctx) (d : DbgMsk) (m : Nat) (fstr : String) (a : List Arg) : List Event :=
  if d.Mask &&& m ≠ 0 then [outputFmt ctx (ccnColor ++ fstr ++ normColor ++ "\n") a] else []

/-- Mask-gated `Failed` (error stream). -/
def DbgMsk.Failed (ctx : Ctx) (d : DbgMsk) (m : Nat) (fstr : String) (a : List Arg) : List Event :=
  if d.Mask &&& m ≠ 0 then [outerrFmt ctx (failColor ++ fstr ++ normColor ++ "\n") a] else []

/-- Mask-gated `Error` (error stream). -/
def DbgMsk.Error (ctx : Ctx) (d : DbgMsk) (m : Nat) (fstr : String) (a : List Arg) : List Event :=
  if d.Mask &&& m ≠ 0 then [outerrFmt ctx (errColor ++ fstr ++ normColor ++ "\n") a] else []

/-- Mask-gated `Danger`. -/
def DbgMsk.Danger (ctx : Ctx) (d : DbgMsk) (m : Nat) (fstr : String) (a : List Arg) : List Event :=
  if d.Mask &&& m ≠ 0 then [outputFmt ctx (fatalColor ++ fstr ++ normColor ++ "\n") a] else []

/-- Mask-gated `ChkTru` (the level parameter is present but unused in the
source as well). -/
def DbgMsk.ChkTru (ctx : Ctx) (d : DbgMsk) (m : Nat) (l : Int) (tst : Bool) (a : List Arg) :
    List Event × Bool :=
  if d.Mask &&& m ≠ 0 ∧ tst = false then
    ([outerrLine (failColor ++ "CHK " ++ ctx.callerAt ++ normColor ++ (failed ctx false a).2)],
     !tst)
  else ([], !tst)

/-- Mask-gated `ChkErr` (unused level parameter as in the source). -/
def DbgMsk.ChkErr (ctx : Ctx) (d : DbgMsk) (m : Nat) (l : Int) (e : GoErr) (a : List Arg) :
    List Event × Bool :=
  match e with
  | none => ([], false)
  | some er =>
    if d.Mask &&& m ≠ 0 then
      ([outerrLine (errColor ++ "ERR " ++ ctx.callerAt ++ normColor
         ++ (errored ctx false er a).2)], true)
    else ([], true)

/-- Package-level `LvlMsg` (earlier revision; the only package-level level
gate in the repository): emit through `Message` when the supplied level does
not exceed the global level installed by `SetLevel`, passed here explicitly.
Note the absence of a positivity guard on the global level. -/
def LvlMsg (ctx : Ctx) (dbgLevel l : Int) (fstr : String) (a : List Arg) : List Event :=
  if l ≤ dbgLevel then [outputFmt ctx (msgColor ++ fstr ++ normColor ++ "\n") a] else []

/-- Package-level `MaskMsg` (earlier revision; the only package-level mask
gate in the repository): emit through `Message` when the supplied mask and
the global mask installed by `SetMask` share a bit. -/
def MaskMsg (ctx : Ctx) (dbgMask m : Nat) (fstr : String) (a : List Arg) : List Event :=
  if m &&& dbgMask ≠ 0 then [outputFmt ctx (msgColor ++ fstr ++ normColor ++ "\n") a] else []

/-- A concrete model of the sprintf collaborator, for closed evaluations. -/
def sprintf0 (f : String) (a : List Arg) : String :=
  f ++ String.join (a.map fun arg => match arg with
    | .str s => s
    | .err e => e.msg
    | .closer _ => "closer"
    | .other n => toString n)

/-- A concrete collaborator context, for closed evaluations. -/
def ctx0 : Ctx := ⟨sprintf0, "@ 1 in dbg/x.go  ", "x.go:1"⟩

lemma ite_singleton_eq_nil {α : Type} {c : Prop} [Decidable c] (x : α) :
    (if c then [x] else []) = [] ↔ ¬c := by
  by_cases h : c <;> simp [h]

lemma ite_singleton_ne_nil {α : Type} {c : Prop} [Decidable c] (x : α) :
    (if c then [x] else []) ≠ [] ↔ c := by
  by_cases h : c <;> simp [h]

lemma runEchos_disabled (ctx : Ctx) (m : Int) (calls : List (String × List Arg)) :
    runEchos ctx ⟨false, m⟩ calls = [] := by
  induction calls with
  | nil => rfl
  | cons c rest ih => simp [runEchos, Dbg.Echo, ih]

/-- Claim C4 counterexample: with the package-level gate set to level 0 (the
value installed by SetLevel), a LvlMsg call supplying required level 0 still
emits, refuting the claim that a configured level of 0 disables every
level-gated emission for every supplied level including 0 and negatives. -/
theorem claim_C4_counterexample : LvlMsg ctx0 0 0 ("boom") [] ≠ [] := by
  simp [LvlMsg]

/-- Claim C4 (amended): every DbgLvl method with configured level 0 emits
nothing, for every supplied required level including 0 and negative values;
but the package-level LvlMsg gate, measured against the level set by
SetLevel, emits exactly when the supplied level is at most the configured
level, so with configured level 0 it is silent only for positive supplied
levels and still emits for levels that are 0 or negative. -/
theorem claim_C4_level_gate (ctx : Ctx) (l : Int) (fstr : String) (a : List Arg)
    (tst : Bool) (e : GoErr) (dbgLevel : Int) :
    DbgLvl.Echo ctx ⟨0⟩ l fstr a = []
    ∧ DbgLvl.Message ctx ⟨0⟩ l fstr a = []
    ∧ DbgLvl.Info ctx ⟨0⟩ l fstr a = []
    ∧ DbgLvl.Note ctx ⟨0⟩ l fstr a = []
    ∧ DbgLvl.Status ctx ⟨0⟩ l fstr a = []
    ∧ DbgLvl.Warning ctx ⟨0⟩ l fstr a = []
    ∧ DbgLvl.Caution ctx ⟨0⟩ l fstr a = []
    ∧ DbgLvl.Failed ctx ⟨0⟩ l fstr a = []
    ∧ DbgLvl.Error ctx ⟨0⟩ l fstr a = []
    ∧ DbgLvl.Danger ctx ⟨0⟩ l fstr a = []
    ∧ (DbgLvl.ChkTru ctx ⟨0⟩ l tst a).1 = []
    ∧ (DbgLvl.ChkErr ctx ⟨0⟩ l e a).1 = []
    ∧ (LvlMsg ctx dbgLevel l fstr a ≠ [] ↔ l ≤ dbgLevel)
    ∧ (LvlMsg ctx 0 l fstr a = [] ↔ 0 < l) := by
  refine ⟨?_, ?_, ?_, ?_, ?_, ?_, ?_, ?_, ?_, ?_, ?_, ?_, ?_, ?_⟩
  · simp [DbgLvl.Echo]
  · simp [DbgLvl.Message]
  · simp [DbgLvl.Info]
  · simp [DbgLvl.Note]
  · simp [DbgLvl.Status]
  · simp [DbgLvl.Warning]
  · simp [DbgLvl.Caution]
  · simp [DbgLvl.Failed]
  · simp [DbgLvl.Error]
  · simp [DbgLvl.Danger]
  · simp [DbgLvl.ChkTru]
  · cases e <;> simp [DbgLvl.ChkErr]
  · simp [LvlMsg, ite_singleton_ne_nil]
  · simp [LvlMsg, ite_singleton_eq_nil, not_le]

/-- Claim C6: a flag gate that is enabled with a countdown of 2 performs
exactly two successful emissions no matter how many calls follow, the second
followed immediately by the distinguished countdown-expired message and the
forced process exit; a disabled gate emits nothing and leaves the countdown
untouched, whatever its value. -/
theorem claim_C6_flag_countdown (ctx : Ctx) (f1 f2 fstr : String) (a1 a2 a : List Arg)
    (rest calls : List (String × List Arg)) (m : Int) :
    runEchos ctx ⟨true, 2⟩ ((f1, a1) :: (f2, a2) :: rest) =
      [outputFmt ctx (f1 ++ "\n") a1,
       outputFmt ctx (f2 ++ "\n") a2,
       countdownMsg ctx, .exitProc (-1)]
    ∧ Dbg.Echo ctx ⟨false, m⟩ fstr a = (⟨false, m⟩, [])
    ∧ runEchos ctx ⟨false, m⟩ calls = [] := by
  refine ⟨?_, rfl, runEchos_disabled ctx m calls⟩
  norm_num [runEchos, Dbg.Echo, Dbg.decExit, isExit, outputFmt, countdownMsg]

/-- Claim C8: every mask-gated method emits exactly when the bitwise and of
the gate's mask and the supplied mask is non-zero (for the check variants,
when additionally the condition fails); in particular a gate mask of 0xA
blocks a call supplying mask 0x1 and passes a call supplying mask 0x2.  The
package-level MaskMsg gate behaves identically against the mask set by
SetMask. -/
theorem claim_C8_mask_gate (ctx : Ctx) (gm m : Nat) (l : Int) (fstr : String) (a : List Arg)
    (e : GoError) :
    (DbgMsk.Echo ctx ⟨gm⟩ m fstr a ≠ [] ↔ gm &&& m ≠ 0)
    ∧ (DbgMsk.Message ctx ⟨gm⟩ m fstr a ≠ [] ↔ gm &&& m ≠ 0)
    ∧ (DbgMsk.Info ctx ⟨gm⟩ m fstr a ≠ [] ↔ gm &&& m ≠ 0)
    ∧ (DbgMsk.Note ctx ⟨gm⟩ m fstr a ≠ [] ↔ gm &&& m ≠ 0)
    ∧ (DbgMsk.Status ctx ⟨gm⟩ m fstr a ≠ [] ↔ gm &&& m ≠ 0)
    ∧ (DbgMsk.Warning ctx ⟨gm⟩ m fstr a ≠ [] ↔ gm &&& m ≠ 0)
    ∧ (DbgMsk.Caution ctx ⟨gm⟩ m fstr a ≠ [] ↔ gm &&& m ≠ 0)
    ∧ (DbgMsk.Failed ctx ⟨gm⟩ m fstr a ≠ [] ↔ gm &&& m ≠ 0)
    ∧ (DbgMsk.Error ctx ⟨gm⟩ m fstr a ≠ [] ↔ gm &&& m ≠ 0)
    ∧ (DbgMsk.Danger ctx ⟨gm⟩ m fstr a ≠ [] ↔ gm &&& m ≠ 0)
    ∧ ((DbgMsk.ChkTru ctx ⟨gm⟩ m l false a).1 ≠ [] ↔ gm &&& m ≠ 0)
    ∧ ((DbgMsk.ChkErr ctx ⟨gm⟩ m l (some e) a).1 ≠ [] ↔ gm &&& m ≠ 0)
    ∧ (MaskMsg ctx gm m fstr a ≠ [] ↔ m &&& gm ≠ 0)
    ∧ DbgMsk.Echo ctx ⟨0xA⟩ 0x1 fstr a = []
    ∧ DbgMsk.Echo ctx ⟨0xA⟩ 0x2 fstr a = [outputFmt ctx (fstr ++ "\n") a] := by
  refine ⟨?_, ?_, ?_, ?_, ?_, ?_, ?_, ?_, ?_, ?_, ?_, ?_, ?_, ?_, ?_⟩
  · simp [DbgMsk.Echo, ite_singleton_ne_nil]
  · simp [DbgMsk.Message, ite_singleton_ne_nil]
  · simp [DbgMsk.Info, ite_singleton_ne_nil]
  · simp [DbgMsk.Note, ite_singleton_ne_nil]
  · simp [DbgMsk.Status, ite_singleton_ne_nil]
  · simp [DbgMsk.Warning, ite_singleton_ne_nil]
  · simp [DbgMsk.Caution, ite_singleton_ne_nil]
  · simp [DbgMsk.Failed, ite_singleton_ne_nil]
  · simp [DbgMsk.Error, ite_singleton_ne_nil]
  · simp [DbgMsk.Danger, ite_singleton_ne_nil]
  · by_cases h : gm &&& m = 0 <;> simp [DbgMsk.ChkTru, h]
  · by_cases h : gm &&& m = 0 <;> simp [DbgMsk.ChkErr, h]
  · simp [MaskMsg, ite_singleton_ne_nil]
  · rfl
  · rfl

/-- Claim C10: every gated check variant returns exactly the underlying
failure condition (test false, or error non-nil) for every gate state; a
disabled flag, insufficient level, or non-matching mask suppresses the
emission only, never the result. -/
theorem claim_C10_gate_result (ctx : Ctx) (d : Dbg) (dl : DbgLvl) (dm : DbgMsk)
    (l : Int) (m : Nat) (tst : Bool) (e : GoErr) (i : List GoError) (a : List Arg) :
    (Dbg.ChkTru ctx d tst a).2.2 = !tst
    ∧ (Dbg.ChkErr ctx d e a).2.2 = e.isSome
    ∧ (Dbg.ChkErrI ctx d e i a).2 = e.isSome
    ∧ (DbgLvl.ChkTru ctx dl l tst a).2 = !tst
    ∧ (DbgLvl.ChkErr ctx dl l e a).2 = e.isSome
    ∧ (DbgMsk.ChkTru ctx dm m l tst a).2 = !tst
    ∧ (DbgMsk.ChkErr ctx dm m l e a).2 = e.isSome := by
  refine ⟨?_, ?_, ?_, ?_, ?_, ?_, ?_⟩
  · simp only [Dbg.ChkTru]
    split <;> rfl
  · cases e with
    | none => rfl
    | some er =>
      simp only [Dbg.ChkErr]
      split <;> rfl
  · cases e with
    | none => rfl
    | some er =>
      simp only [Dbg.ChkErrI]
      split
      · split <;> rfl
      · rfl
  · simp only [DbgLvl.ChkTru]
    split <;> rfl
  · cases e with
    | none => rfl
    | some er =>
      simp only [DbgLvl.ChkErr]
      split <;> rfl
  · simp only [DbgMsk.ChkTru]
    split <;> rfl
  · cases e with
    | none => rfl
    | some er =>
      simp only [DbgMsk.ChkErr]
      split <;> rfl

end DbgLib
